import Mathlib

/-!
Verification of the Human-in-the-Loop (HITL) approval workflow of the
25-Day-Agents-Course repository (day-16).

The embedding below is a shallow model of:
  * `langgraph_agent/checkpointer.py` — `TaskMetadata`, `TaskStore`
    (`create_task`, `get_task`, `update_task`, `get_pending_approvals`);
  * `langgraph_agent/hitl_agent.py` — the workflow nodes
    (`analyze_request_node`, `human_review_node`, `execute_action_node`,
    `handle_rejection_node`, `generate_response_node`), the routing
    functions (`route_after_analysis`, `route_after_review`), the compiled
    graph of `create_hitl_graph` (including the
    `interrupt_before=["human_review"]` semantics: execution halts before
    that node runs on a fresh pass, and the node runs on a resumed pass),
    and the entry points `run_hitl_agent` / `resume_after_approval`;
  * `langgraph_agent/server.py` — the approval endpoint core
    (`_process_approval`, modelled as `process_approval`) and one cycle of
    the timeout sweeper (`check_approval_timeouts`).

Modelling conventions:
  * The LLM collaborator is opaque.  The classifier call inside
    `analyze_request_node` is modelled by its observable outcome
    `LLMClassifierOutput`: either the text parsed as a JSON object (each
    expected key possibly absent, mirroring `result.get(key, default)`),
    or it raised `json.JSONDecodeError` (`unparsable raw`).  The LLM call
    of `generate_response_node` is an opaque function from the branch the
    node selected (the branch, not the LLM, is source logic).
  * Timestamps are natural-number seconds.  The source stores ISO-8601
    UTC strings and compares them through `datetime.fromisoformat`;
    that ordering agrees with the numeric one.
  * Python `None` in nullable text columns is modelled as `""` (the
    claims only ever distinguish empty from non-empty).
  * The sqlite `UPDATE tasks SET col = ? ...` statement built by
    `TaskStore.update_task` fails with `no such column` when a keyword
    argument is not a column of the `tasks` table; `update_task` below
    returns `Except.error` in exactly that case, and leaves the store
    unchanged (a failed sqlite statement has no effect).
  * `StoreLog.writes` is instrumentation: it records, per successful
    `update_task` call, the exact argument list that was applied, so that
    theorems can speak about which statuses a run ever wrote.
-/

namespace HITL

/-- Action plan produced by the risk classifier (`ActionPlan` dataclass /
the `action_plan` dict built in `analyze_request_node`). -/
structure ActionPlan where
  action_type : String
  description : String
  risk_level : String
  parameters : List (String × String)
  reason : String
deriving DecidableEq, Repr

/-- Workflow state (`HITLState` TypedDict).  `user_input` stands for the
content of the first user message of `messages`, which is all the nodes
ever extract from the message list. -/
structure HITLState where
  task_id : String
  thread_id : String
  user_input : String
  analysis : String
  action_plan : ActionPlan
  risk_level : String
  requires_approval : Bool
  approval_status : String
  approval_comment : String
  approver : String
  execution_result : String
  final_answer : String
  iteration : Nat
  error : String
deriving DecidableEq, Repr

/-- A partial state update as returned by a LangGraph node (a Python dict
holding only the keys the node wants to change). -/
structure NodeUpdate where
  analysis : Option String := none
  action_plan : Option ActionPlan := none
  risk_level : Option String := none
  requires_approval : Option Bool := none
  approval_status : Option String := none
  approval_comment : Option String := none
  approver : Option String := none
  execution_result : Option String := none
  final_answer : Option String := none
  iteration : Option Nat := none
  error : Option String := none
deriving DecidableEq, Repr

/-- Merge a node's partial update into the state (LangGraph overwrites the
keys present in the returned dict and keeps the rest; `task_id`,
`thread_id` and the message list are never returned by any node). -/
def applyNodeUpdate (s : HITLState) (u : NodeUpdate) : HITLState :=
  { s with
    analysis := u.analysis.getD s.analysis
    action_plan := u.action_plan.getD s.action_plan
    risk_level := u.risk_level.getD s.risk_level
    requires_approval := u.requires_approval.getD s.requires_approval
    approval_status := u.approval_status.getD s.approval_status
    approval_comment := u.approval_comment.getD s.approval_comment
    approver := u.approver.getD s.approver
    execution_result := u.execution_result.getD s.execution_result
    final_answer := u.final_answer.getD s.final_answer
    iteration := u.iteration.getD s.iteration
    error := u.error.getD s.error }

/-- The fields of the classifier's JSON object once `json.loads` succeeds;
`none` models an absent key, so `result.get(k, d)` is `(fields.k).getD d`. -/
structure ParsedClassification where
  analysis : Option String := none
  action_type : Option String := none
  description : Option String := none
  risk_level : Option String := none
  parameters : Option (List (String × String)) := none
  reason : Option String := none
  requires_approval : Option Bool := none
deriving DecidableEq, Repr

/-- Observable outcome of the classifier LLM call after markdown-fence
stripping: the text parsed as a JSON object, or `json.loads` raised. -/
inductive LLMClassifierOutput where
  | parsed (r : ParsedClassification)
  | unparsable (raw : String)
deriving DecidableEq, Repr

/-- `analyze_request_node` (hitl_agent.py lines 128-226): parse the
classifier output, with per-key defaults on success and the conservative
fallback plan on `json.JSONDecodeError`. -/
def analyze_request_node (state : HITLState) (llm : LLMClassifierOutput) : NodeUpdate :=
  match llm with
  | .parsed r =>
      { analysis := some (r.analysis.getD "")
        action_plan := some
          { action_type := r.action_type.getD "unknown"
            description := r.description.getD ""
            risk_level := r.risk_level.getD "medium"
            parameters := r.parameters.getD []
            reason := r.reason.getD "" }
        risk_level := some (r.risk_level.getD "medium")
        requires_approval := some (r.requires_approval.getD true)
        iteration := some (state.iteration + 1) }
  | .unparsable raw =>
      { analysis := some raw
        action_plan := some
          { action_type := "unknown"
            description := state.user_input
            risk_level := "high"
            parameters := []
            reason := "无法解析，需要人工判断" }
        risk_level := some "high"
        requires_approval := some true
        iteration := some (state.iteration + 1) }

/-- `route_after_analysis` (hitl_agent.py lines 423-444). -/
def route_after_analysis (state : HITLState) : String :=
  if state.risk_level == "high" || state.risk_level == "critical" then "human_review"
  else if state.requires_approval then "human_review"
  else "execute"

/-- `route_after_review` (hitl_agent.py lines 447-467). -/
def route_after_review (state : HITLState) : String :=
  if state.approval_status == "approved" then "execute"
  else if state.approval_status == "rejected" || state.approval_status == "timeout" then "reject"
  else "wait"

/-- One row of the `tasks` table (`TaskMetadata` dataclass; the sqlite
schema created in `TaskStore._init_db`). -/
structure TaskMetadata where
  task_id : String
  thread_id : String
  created_at : Nat
  updated_at : Nat
  status : String
  current_node : String
  pending_action : String
  user_input : String
  error_message : String
deriving DecidableEq, Repr

/-- The task store content, in insertion order (creation order). -/
abbrev TaskStore := List TaskMetadata

/-- The columns of the `tasks` table. -/
def taskColumns : List String :=
  ["task_id", "thread_id", "created_at", "updated_at", "status",
   "current_node", "pending_action", "user_input", "error_message"]

/-- Apply one `col = value` assignment of the generated UPDATE statement.
Only the text columns that are ever passed as keyword arguments by the
source are interpreted (`task_id`, `created_at`, `updated_at` are never
passed; `updated_at` is stamped separately by `update_task`). -/
def setColumn (t : TaskMetadata) (f v : String) : TaskMetadata :=
  if f = "status" then { t with status := v }
  else if f = "current_node" then { t with current_node := v }
  else if f = "pending_action" then { t with pending_action := v }
  else if f = "user_input" then { t with user_input := v }
  else if f = "error_message" then { t with error_message := v }
  else if f = "thread_id" then { t with thread_id := v }
  else t

/-- Apply the full update list of one `update_task` call to a row,
stamping `updated_at` first (the source adds `updated_at` to the kwargs
before building the statement). -/
def applyTaskUpdates (t : TaskMetadata) (now : Nat)
    (updates : List (String × String)) : TaskMetadata :=
  updates.foldl (fun z p => setColumn z p.1 p.2) { t with updated_at := now }

/-- `TaskStore.create_task`: INSERT a fresh row with status `pending`. -/
def create_task (store : TaskStore) (task_id thread_id user_input : String)
    (now : Nat) : TaskStore × TaskMetadata :=
  let t : TaskMetadata :=
    { task_id := task_id, thread_id := thread_id, created_at := now, updated_at := now,
      status := "pending", current_node := "", pending_action := "",
      user_input := user_input, error_message := "" }
  (store ++ [t], t)

/-- `TaskStore.get_task`: SELECT by primary key. -/
def get_task (store : TaskStore) (task_id : String) : Option TaskMetadata :=
  store.find? (fun t => t.task_id == task_id)

/-- `TaskStore.update_task`: builds `UPDATE tasks SET c1 = ?, ... WHERE
task_id = ?` from the keyword arguments.  sqlite rejects the whole
statement with `no such column` when some key is not a column of the
table, leaving the store untouched; otherwise the matching row (if any)
is updated and `updated_at` stamped. -/
def update_task (store : TaskStore) (task_id : String) (now : Nat)
    (updates : List (String × String)) : Except String TaskStore :=
  if updates.all (fun p => taskColumns.contains p.1) then
    .ok (store.map (fun t =>
      if t.task_id == task_id then applyTaskUpdates t now updates else t))
  else
    .error "no such column"

/-- `TaskStore.get_pending_approvals`: all rows with status
`waiting_approval`, ordered by `created_at` ascending.  The store list is
kept in creation order, so the filter already is in that order. -/
def get_pending_approvals (store : TaskStore) : List TaskMetadata :=
  store.filter (fun t => t.status == "waiting_approval")

/-- A task store together with the log of the argument lists of the
successful `update_task` calls issued so far (instrumentation only). -/
structure StoreLog where
  store : TaskStore
  writes : List (String × List (String × String)) := []
deriving DecidableEq, Repr

/-- `update_task` on a `StoreLog`: performs the update and, when it
succeeds, records the exact argument list in the write log. -/
def logged_update (sl : StoreLog) (task_id : String) (now : Nat)
    (updates : List (String × String)) : Except String StoreLog :=
  match update_task sl.store task_id now updates with
  | .ok store => .ok { store := store, writes := sl.writes ++ [(task_id, updates)] }
  | .error e => .error e

/-- The status values among the logged writes of one run. -/
def statusesWritten (writes : List (String × List (String × String))) : List String :=
  writes.flatMap (fun w => (w.2.filter (fun p => p.1 == "status")).map (fun p => p.2))

/-- The four response branches of `generate_response_node` (hitl_agent.py
lines 353-388): error present, approval rejected, approval timed out, or
the plain success summary.  The branch (and with it the system
instruction chosen by the node) is source logic; the LLM text produced
for a branch is opaque and supplied as a function `answer`. -/
inductive RespondBranch where
  | errorBranch
  | rejectedBranch
  | timeoutBranch
  | successBranch
deriving DecidableEq, Repr

/-- `generate_response_node` (hitl_agent.py lines 326-399): pick the
response branch from the state and store the LLM answer for that branch
as `final_answer`.  Touches no store. -/
def generate_response_node (state : HITLState)
    (answer : RespondBranch → String) : NodeUpdate :=
  if !(state.error == "") then { final_answer := some (answer .errorBranch) }
  else if state.approval_status == "rejected" then
    { final_answer := some (answer .rejectedBranch) }
  else if state.approval_status == "timeout" then
    { final_answer := some (answer .timeoutBranch) }
  else { final_answer := some (answer .successBranch) }

/-- `human_review_node` (hitl_agent.py lines 229-261): unconditionally
write `status=waiting_approval`, `current_node=human_review`,
`pending_action=<plan description>` to the task store, then return no
state update when an approval decision is already present (resumed run)
and `approval_status=pending` otherwise. -/
def human_review_node (state : HITLState) (sl : StoreLog) (now : Nat) :
    Except String (NodeUpdate × StoreLog) := do
  let sl ← logged_update sl state.task_id now
    [("status", "waiting_approval"), ("current_node", "human_review"),
     ("pending_action", state.action_plan.description)]
  if state.approval_status == "approved" || state.approval_status == "rejected"
      || state.approval_status == "timeout" then
    pure ({}, sl)
  else
    pure ({ approval_status := some "pending" }, sl)

/-- `_simulate_action_execution` (hitl_agent.py lines 310-323). -/
def simulate_action_execution (action_type : String) (action_plan : ActionPlan) :
    String :=
  let description := action_plan.description
  if action_type == "query_info" then "查询完成: " ++ description
  else if action_type == "modify_data" then "数据修改成功: " ++ description
  else if action_type == "delete_data" then "数据删除成功: " ++ description
  else if action_type == "send_message" then "消息发送成功: " ++ description
  else if action_type == "make_payment" then "支付操作完成: " ++ description
  else "操作完成: " ++ description

/-- `execute_action_node` (hitl_agent.py lines 264-307): the safety check
re-verifies approval; on violation it returns an empty execution result
and an error message, touching no store; otherwise it simulates the
action and marks the task `completed`. -/
def execute_action_node (state : HITLState) (sl : StoreLog) (now : Nat) :
    Except String (NodeUpdate × StoreLog) :=
  if state.requires_approval && !(state.approval_status == "approved") then
    pure ({ execution_result := some "",
            error := some ("Cannot execute: approval_status=" ++ state.approval_status) },
          sl)
  else do
    let result := simulate_action_execution state.action_plan.action_type state.action_plan
    let sl ← logged_update sl state.task_id now
      [("status", "completed"), ("current_node", "execute_action")]
    pure ({ execution_result := some result }, sl)

/-- `handle_rejection_node` (hitl_agent.py lines 402-416): mark the task
`rejected` and return no state update. -/
def handle_rejection_node (state : HITLState) (sl : StoreLog) (now : Nat) :
    Except String (NodeUpdate × StoreLog) := do
  let sl ← logged_update sl state.task_id now
    [("status", "rejected"), ("current_node", "handle_rejection")]
  pure ({}, sl)

/-- Tail of every path: the `respond` node followed by END
(`graph.add_edge("respond", END)`). -/
def run_respond (state : HITLState) (sl : StoreLog)
    (answer : RespondBranch → String) : HITLState × StoreLog :=
  (applyNodeUpdate state (generate_response_node state answer), sl)

/-- The `execute` node followed by `respond`
(`graph.add_edge("execute", "respond")`). -/
def run_execute_chain (state : HITLState) (sl : StoreLog) (now : Nat)
    (answer : RespondBranch → String) : Except String (HITLState × StoreLog) := do
  let (u, sl) ← execute_action_node state sl now
  pure (run_respond (applyNodeUpdate state u) sl answer)

/-- The `handle_rejection` node followed by `respond`
(`graph.add_edge("handle_rejection", "respond")`). -/
def run_rejection_chain (state : HITLState) (sl : StoreLog) (now : Nat)
    (answer : RespondBranch → String) : Except String (HITLState × StoreLog) := do
  let (u, sl) ← handle_rejection_node state sl now
  pure (run_respond (applyNodeUpdate state u) sl answer)

/-- The `human_review` node followed by the `route_after_review`
conditional edges (`execute` / `handle_rejection` / END for `wait`). -/
def run_human_review_chain (state : HITLState) (sl : StoreLog) (now : Nat)
    (answer : RespondBranch → String) : Except String (HITLState × StoreLog) := do
  let (u, sl) ← human_review_node state sl now
  let s := applyNodeUpdate state u
  if route_after_review s == "execute" then run_execute_chain s sl now answer
  else if route_after_review s == "reject" then run_rejection_chain s sl now answer
  else pure (s, sl)

/-- Result of invoking the compiled graph once. -/
structure InvokeOutcome where
  state : HITLState
  storeLog : StoreLog
  interrupted : Bool
deriving DecidableEq, Repr

/-- A fresh `agent.invoke(initial_state, config)` on the graph compiled by
`create_hitl_graph` (hitl_agent.py lines 474-581): run `analyze`, follow
`route_after_analysis`; because the graph is compiled with
`interrupt_before=["human_review"]`, execution halts *before* the
`human_review` node runs when routed there, checkpointing with that node
pending (`interrupted := true`). -/
def invoke_fresh (initial : HITLState) (sl : StoreLog) (now : Nat)
    (classifier : LLMClassifierOutput) (answer : RespondBranch → String) :
    Except String InvokeOutcome := do
  let u := analyze_request_node initial classifier
  let s := applyNodeUpdate initial u
  if route_after_analysis s == "human_review" then
    pure { state := s, storeLog := sl, interrupted := true }
  else if route_after_analysis s == "execute" then do
    let (s, sl) ← run_execute_chain s sl now answer
    pure { state := s, storeLog := sl, interrupted := false }
  else do
    let (s, sl) := run_respond s sl answer
    pure { state := s, storeLog := sl, interrupted := false }

/-- `agent.invoke(None, config)` on a thread checkpointed before
`human_review`: the pending `human_review` node now executes (the
interrupt does not re-trigger on resume) and the graph runs to END. -/
def invoke_resumed (checkpoint : HITLState) (sl : StoreLog) (now : Nat)
    (answer : RespondBranch → String) : Except String InvokeOutcome := do
  let (s, sl) ← run_human_review_chain checkpoint sl now answer
  pure { state := s, storeLog := sl, interrupted := false }

/-- What `run_hitl_agent` / `resume_after_approval` return: ids, the task
store status read back for the task (or `unknown`), and the result state;
`interrupted` and the store log are kept for the theorems. -/
structure RunOutcome where
  task_id : String
  thread_id : String
  status : String
  result : HITLState
  interrupted : Bool
  storeLog : StoreLog
deriving DecidableEq, Repr

/-- The `initial_state` dict of `run_hitl_agent` (lines 618-633). -/
def initial_hitl_state (task_id thread_id user_input : String) : HITLState :=
  { task_id := task_id, thread_id := thread_id, user_input := user_input,
    analysis := "", action_plan := ⟨"", "", "", [], ""⟩, risk_level := "",
    requires_approval := false, approval_status := "", approval_comment := "",
    approver := "", execution_result := "", final_answer := "", iteration := 0,
    error := "" }

/-- Read the status reported at the end of a run:
`task_store.get_task(task_id).status if ... else "unknown"`. -/
def reported_status (store : TaskStore) (task_id : String) : String :=
  match get_task store task_id with
  | some t => t.status
  | none => "unknown"

/-- `run_hitl_agent` (hitl_agent.py lines 588-646): create the task
record (status `pending`), seed the initial state and invoke the graph
from `analyze` until it suspends or reaches END. -/
def run_hitl_agent (user_input task_id thread_id : String) (sl : StoreLog)
    (now : Nat) (classifier : LLMClassifierOutput)
    (answer : RespondBranch → String) : Except String RunOutcome := do
  let (store, _) := create_task sl.store task_id thread_id user_input now
  let sl := { sl with store := store }
  let out ← invoke_fresh (initial_hitl_state task_id thread_id user_input) sl now
    classifier answer
  pure { task_id := task_id, thread_id := thread_id,
         status := reported_status out.storeLog.store task_id,
         result := out.state, interrupted := out.interrupted,
         storeLog := out.storeLog }

/-- `resume_after_approval` (hitl_agent.py lines 649-705): update the task
store to `approved`/`rejected` — note the call passes an
`approval_status` keyword that is *not* a column of the `tasks` table, so
this first statement raises `no such column` — then patch the
checkpointed state (`agent.update_state`) and re-invoke the graph from
the suspension point. -/
def resume_after_approval (task_id thread_id : String) (approved : Bool)
    (comment approver : String) (checkpoint : HITLState) (sl : StoreLog)
    (now : Nat) (answer : RespondBranch → String) : Except String RunOutcome := do
  let approval_status := if approved then "approved" else "rejected"
  let sl ← logged_update sl task_id now
    [("status", approval_status), ("approval_status", approval_status)]
  let s := { checkpoint with
             approval_status := approval_status,
             approval_comment := comment, approver := approver }
  let out ← invoke_resumed s sl now answer
  pure { task_id := task_id, thread_id := thread_id,
         status := reported_status out.storeLog.store task_id,
         result := out.state, interrupted := out.interrupted,
         storeLog := out.storeLog }

/-- One recorded invocation of the resume path, with the arguments it was
given. -/
structure ResumeCall where
  task_id : String
  thread_id : String
  approved : Bool
  comment : String
  approver : String
deriving DecidableEq, Repr

/-- One cycle of the timeout sweeper `check_approval_timeouts`
(server.py lines 126-162): fetch the `waiting_approval` tasks once, and
for each past its deadline (`now > created_at + timeout_seconds`) run
`try: resume_after_approval(...); update_task(status="timeout") except:
log and continue`.  The `.error` branch keeps the store as it was before
the attempt: the only failing statement of the attempt is its first
store write, which sqlite aborts without effect, so no partial effect is
discarded.  The returned list records every invocation of the resume
path with its arguments. -/
def check_approval_timeouts_cycle (sl : StoreLog) (now timeout_seconds : Nat)
    (checkpoints : String → HITLState) (answer : RespondBranch → String) :
    StoreLog × List ResumeCall :=
  (get_pending_approvals sl.store).foldl
    (fun acc task =>
      if task.created_at + timeout_seconds < now then
        let call : ResumeCall :=
          { task_id := task.task_id, thread_id := task.thread_id, approved := false,
            comment := "审批超时，自动拒绝", approver := "system_timeout" }
        let attempt : Except String StoreLog := do
          let r ← resume_after_approval task.task_id task.thread_id false
            "审批超时，自动拒绝" "system_timeout" (checkpoints task.thread_id)
            acc.1 now answer
          let sl2 ← logged_update r.storeLog task.task_id now [("status", "timeout")]
          pure sl2
        match attempt with
        | .ok sl2 => (sl2, acc.2 ++ [call])
        | .error _ => (acc.1, acc.2 ++ [call])
      else acc)
    (sl, [])

/-- Error responses of the approval API (HTTP status equivalents). -/
inductive ApiError where
  | notFound (detail : String)
  | badRequest (detail : String)
  | internalError (detail : String)
deriving DecidableEq, Repr

/-- The `ApprovalResponse` model of server.py. -/
structure ApprovalResponse where
  task_id : String
  status : String
  result : String
  message : String
deriving DecidableEq, Repr

/-- Result of `_process_approval`: the store afterwards, the resume-path
invocations made, and the HTTP-level response. -/
structure ApprovalOutcome where
  storeLog : StoreLog
  resumeCalls : List ResumeCall
  response : Except ApiError ApprovalResponse

/-- `_process_approval` (server.py lines 429-476): 404 when the task id is
unknown; 400 and no mutation when the task is not `waiting_approval`;
otherwise call `resume_after_approval` and build the response (an
exception from resume surfaces as a 500 and, resume having failed on its
very first store statement, leaves the store unchanged). -/
def process_approval (sl : StoreLog) (task_id : String) (approved : Bool)
    (comment approver : String) (checkpoints : String → HITLState) (now : Nat)
    (answer : RespondBranch → String) : ApprovalOutcome :=
  match get_task sl.store task_id with
  | none =>
      { storeLog := sl, resumeCalls := [],
        response := .error (.notFound ("Task not found: " ++ task_id)) }
  | some task =>
      if !(task.status == "waiting_approval") then
        { storeLog := sl, resumeCalls := [],
          response := .error (.badRequest
            ("Task is not waiting for approval. Current status: " ++ task.status)) }
      else
        let call : ResumeCall :=
          { task_id := task_id, thread_id := task.thread_id, approved := approved,
            comment := comment, approver := approver }
        match resume_after_approval task_id task.thread_id approved comment approver
            (checkpoints task.thread_id) sl now answer with
        | .ok r =>
            { storeLog := r.storeLog, resumeCalls := [call],
              response := .ok
                { task_id := task_id, status := r.status,
                  result := r.result.final_answer,
                  message := if approved then "任务已批准" else "任务已拒绝" } }
        | .error e =>
            { storeLog := sl, resumeCalls := [call],
              response := .error (.internalError e) }

/-- A concrete workflow state used to instantiate witnesses. -/
def sampleState : HITLState :=
  { task_id := "t1", thread_id := "th1", user_input := "修改我的用户名",
    analysis := "", action_plan := ⟨"", "", "", [], ""⟩, risk_level := "",
    requires_approval := false, approval_status := "", approval_comment := "",
    approver := "", execution_result := "", final_answer := "", iteration := 0,
    error := "" }

theorem setColumn_task_id (t : TaskMetadata) (f v : String) :
    (setColumn t f v).task_id = t.task_id := by
  simp only [setColumn]
  split_ifs <;> rfl

theorem foldl_setColumn_task_id (l : List (String × String)) (t : TaskMetadata) :
    (l.foldl (fun z p => setColumn z p.1 p.2) t).task_id = t.task_id := by
  induction l generalizing t with
  | nil => rfl
  | cons p l ih => rw [List.foldl_cons, ih, setColumn_task_id]

theorem applyTaskUpdates_task_id (t : TaskMetadata) (now : Nat)
    (updates : List (String × String)) :
    (applyTaskUpdates t now updates).task_id = t.task_id :=
  foldl_setColumn_task_id updates _

/-- The row returned by `get_task` after a successful `update_task` for
the same id is the old row with the updates applied. -/
theorem get_task_after_update (store : TaskStore) (tid : String) (now : Nat)
    (updates : List (String × String)) (store2 : TaskStore)
    (h : update_task store tid now updates = .ok store2) :
    get_task store2 tid
      = (get_task store tid).map (fun t => applyTaskUpdates t now updates) := by
  unfold update_task at h
  split at h
  case isFalse => exact absurd h (by simp)
  case isTrue =>
    have hst : store2 = store.map
        (fun t => if t.task_id == tid then applyTaskUpdates t now updates else t) := by
      cases h; rfl
    subst hst
    unfold get_task
    rw [List.find?_map]
    have hp : ((fun t : TaskMetadata => t.task_id == tid) ∘
        (fun t => if t.task_id == tid then applyTaskUpdates t now updates else t))
        = (fun t : TaskMetadata => t.task_id == tid) := by
      funext t
      by_cases ht : (t.task_id == tid) = true
      · simp [Function.comp, ht, applyTaskUpdates_task_id]
      · simp [Function.comp, ht]
    rw [hp]
    cases hf : List.find? (fun t : TaskMetadata => t.task_id == tid) store with
    | none => rfl
    | some t =>
      have ht := List.find?_some hf
      simp only [Option.map_some']
      rw [if_pos ht]

/-- A successful `update_task` reports success exactly when every key is a
column; used to discharge the concrete update lists of the nodes. -/
theorem update_task_ok_of_columns (store : TaskStore) (tid : String) (now : Nat)
    (updates : List (String × String))
    (h : updates.all (fun p => taskColumns.contains p.1) = true) :
    update_task store tid now updates = .ok (store.map (fun t =>
      if t.task_id == tid then applyTaskUpdates t now updates else t)) := by
  unfold update_task
  rw [if_pos h]

theorem exceptBindOk {ε α β : Type} (x : α) (f : α → Except ε β) :
    (Except.ok x >>= f) = f x := rfl

theorem exceptMapOk {ε α β : Type} (f : α → β) (x : α) :
    (Except.map f (Except.ok x : Except ε α)) = .ok (f x) := rfl

theorem exceptMapPure {ε α β : Type} (f : α → β) (x : α) :
    (Except.map f (pure x : Except ε α)) = .ok (f x) := rfl

theorem exceptPureBind {ε α β : Type} (x : α) (f : α → Except ε β) :
    ((pure x : Except ε α) >>= f) = f x := rfl

/-- Appending a fresh row makes it the row found for its id. -/
theorem get_task_append_fresh (store : TaskStore) (t : TaskMetadata)
    (h : get_task store t.task_id = none) :
    get_task (store ++ [t]) t.task_id = some t := by
  unfold get_task at h ⊢
  rw [List.find?_append, h]
  simp [List.find?]

/-- Full behaviour of the `execute → respond` chain when no approval is
required and the state carries no error and no approval decision: the
simulated action runs, the row is marked `completed`, and the respond
node answers through its success branch. -/
theorem run_execute_chain_no_approval (s : HITLState) (sl : StoreLog) (now : Nat)
    (answer : RespondBranch → String)
    (hreq : s.requires_approval = false) (herr : s.error = "")
    (hst : s.approval_status = "") :
    run_execute_chain s sl now answer = .ok
      ({ s with
         execution_result := simulate_action_execution s.action_plan.action_type
           s.action_plan,
         final_answer := answer .successBranch },
       { store := sl.store.map (fun t => if t.task_id == s.task_id then
           applyTaskUpdates t now [("status", "completed"), ("current_node", "execute_action")]
           else t),
         writes := sl.writes ++
           [(s.task_id, [("status", "completed"), ("current_node", "execute_action")])] }) := by
  unfold run_execute_chain execute_action_node logged_update
  rw [hreq]
  simp only [Bool.false_and, Bool.false_eq_true, if_false]
  rw [update_task_ok_of_columns sl.store s.task_id now
    [("status", "completed"), ("current_node", "execute_action")] (by rfl)]
  simp only [exceptBindOk, exceptPureBind]
  unfold run_respond generate_response_node applyNodeUpdate
  simp only [Option.getD_some, Option.getD_none, herr, hst]
  simp only [hreq]
  exact rfl

/-- The error message built by the execute-node safety check is never the
empty string, whatever the approval status is. -/
theorem cannot_execute_message_ne_empty (x : String) :
    ("Cannot execute: approval_status=" ++ x) ≠ "" := by
  intro h
  have h1 : ("Cannot execute: approval_status=" ++ x).length = 0 := by rw [h]; rfl
  rw [String.length_append] at h1
  have h2 : ("Cannot execute: approval_status=" : String).length = 32 := by decide
  omega

end HITL

namespace HITL

/-- Claim C1: when the classifier LLM output fails to parse as JSON, the
analyze step swallows the error and produces the conservative fallback:
`action_type="unknown"`, `risk_level="high"`, `requires_approval=true`,
the raw LLM text stored as `analysis`; the resulting state is routed to
`human_review` by `route_after_analysis`, never directly to `execute`. -/
theorem C1_parse_failure_conservative_fallback (s : HITLState) (raw : String) :
    (analyze_request_node s (.unparsable raw)).analysis = some raw ∧
    (analyze_request_node s (.unparsable raw)).action_plan = some
      { action_type := "unknown", description := s.user_input, risk_level := "high",
        parameters := [], reason := "无法解析，需要人工判断" } ∧
    (analyze_request_node s (.unparsable raw)).risk_level = some "high" ∧
    (analyze_request_node s (.unparsable raw)).requires_approval = some true ∧
    route_after_analysis (applyNodeUpdate s (analyze_request_node s (.unparsable raw)))
      = "human_review" := by
  refine ⟨rfl, rfl, rfl, rfl, ?_⟩
  simp [analyze_request_node, applyNodeUpdate, route_after_analysis]

/-- Claim C10: a classifier response that parses as JSON but omits
`requires_approval` defaults it to `true` (and an omitted `risk_level`
defaults to `"medium"`), so the state is still routed to human review. -/
theorem C10_omitted_requires_approval_defaults_true (s : HITLState)
    (r : ParsedClassification) (h : r.requires_approval = none) :
    (analyze_request_node s (.parsed r)).requires_approval = some true ∧
    (r.risk_level = none →
      (analyze_request_node s (.parsed r)).risk_level = some "medium") ∧
    route_after_analysis (applyNodeUpdate s (analyze_request_node s (.parsed r)))
      = "human_review" := by
  refine ⟨by simp [analyze_request_node, h], fun hr => by simp [analyze_request_node, hr], ?_⟩
  simp only [analyze_request_node, applyNodeUpdate, route_after_analysis, h, Option.getD_none]
  split
  · rfl
  · rfl

/-- Claim C2, counterexample: a concrete workflow state reaches `execute`
with `requires_approval = true` and `approval_status = "pending"`.  The
node aborts with an error and the workflow proceeds to `respond`, but the
task's Task Store row keeps `error_message = ""` (no node ever writes the
`error_message` column), refuting the claim's assertion that the error is
surfaced as the task's `error_message`. -/
theorem C2_counterexample_error_message_not_written :
    (run_execute_chain
        { sampleState with requires_approval := true, approval_status := "pending",
                           action_plan := ⟨"delete_data", "删除数据", "high", [], "风险"⟩ }
        { store := [⟨"t1", "th1", 0, 0, "pending", "analyze", "", "请删除数据", ""⟩],
          writes := [] } 7 (fun _ => "resp")).map (fun r =>
      (r.1.error, (get_task r.2.store "t1").map (fun t => (t.status, t.error_message))))
      = .ok ("Cannot execute: approval_status=pending", some ("pending", "")) := by
  rfl

/-- Claim C2 (amended): when a workflow state reaches the execute node
with `requires_approval = true` and `approval_status ≠ "approved"`, the
node does not perform the action and returns an error result
(`execution_result` stays empty), the workflow still proceeds to
`respond`, which answers through its error branch; the error is recorded
in the workflow state's `error` field only — the Task Store is not
touched at all by this path (in particular the task's status does not
become `failed` and its `error_message` column is not written). -/
theorem C2_execute_safety_check_aborts (s : HITLState) (sl : StoreLog) (now : Nat)
    (answer : RespondBranch → String)
    (hreq : s.requires_approval = true) (happ : s.approval_status ≠ "approved") :
    (run_execute_chain s sl now answer).map (fun r =>
        (r.1.execution_result, r.1.error, r.1.final_answer, r.2))
      = .ok ("", "Cannot execute: approval_status=" ++ s.approval_status,
             answer .errorBranch, sl) := by
  have hb : (s.approval_status == "approved") = false := beq_eq_false_iff_ne.mpr happ
  have hb2 : (("Cannot execute: approval_status=" ++ s.approval_status) == "") = false :=
    beq_eq_false_iff_ne.mpr (cannot_execute_message_ne_empty s.approval_status)
  unfold run_execute_chain execute_action_node
  rw [hreq, hb]
  simp only [Bool.not_false, Bool.true_and, if_true, exceptBindOk, exceptMapPure]
  unfold run_respond generate_response_node applyNodeUpdate
  simp only [cannot_execute_message_ne_empty s.approval_status, if_false,
    Option.getD_some, Option.getD_none]
  rfl

/-- Witness for the amended C2 at a concrete blocked execution. -/
theorem C2_execute_safety_check_aborts_witness :
    (run_execute_chain
        { sampleState with requires_approval := true, approval_status := "pending" }
        { store := [], writes := [] } 3 (fun _ => "resp")).map (fun r =>
        (r.1.execution_result, r.1.error, r.1.final_answer, r.2))
      = .ok ("", "Cannot execute: approval_status=" ++ "pending",
             "resp", ({ store := [], writes := [] } : StoreLog)) :=
  C2_execute_safety_check_aborts
    { sampleState with requires_approval := true, approval_status := "pending" }
    { store := [], writes := [] } 3 (fun _ => "resp") rfl (by decide)

/-- Claim C8, counterexample: `human_review_node` on a resumed state
(`approval_status = "approved"`) returns the empty state update, but the
Task Store row it was given (status `"approved"`) comes back mutated to
status `"waiting_approval"` with `pending_action` overwritten — so the
node is not a no-op on the Task Store record. -/
theorem C8_counterexample_store_written_on_resume :
    ((get_task [⟨"t1", "th1", 0, 4, "approved", "analyze", "", "请删除账号", ""⟩]
        "t1").map TaskMetadata.status = some "approved") ∧
    (human_review_node
        { sampleState with approval_status := "approved",
                           action_plan := ⟨"delete_data", "删除账号", "critical", [], "r"⟩ }
        { store := [⟨"t1", "th1", 0, 4, "approved", "analyze", "", "请删除账号", ""⟩],
          writes := [] } 9).map (fun r =>
      (r.1, (get_task r.2.store "t1").map (fun t => (t.status, t.pending_action))))
      = .ok (({} : NodeUpdate), some ("waiting_approval", "删除账号")) := by
  exact ⟨rfl, rfl⟩

/-- Claim C8 (amended): when `human_review_node` runs in a resumed
execution whose `approval_status` is already `approved`, `rejected` or
`timeout`, it returns no workflow-state update (applying its returned
update leaves the state unchanged), but before that check it
unconditionally updates the task's Task Store row: status becomes
`waiting_approval` and `pending_action` becomes the action plan's
description, while the row's `created_at` and `user_input` are
preserved. -/
theorem C8_resumed_review_passthrough_state_only (s : HITLState) (sl : StoreLog)
    (now : Nat)
    (h : s.approval_status = "approved" ∨ s.approval_status = "rejected" ∨
         s.approval_status = "timeout") :
    (human_review_node s sl now).map (fun r =>
        (applyNodeUpdate s r.1,
         (get_task r.2.store s.task_id).map (fun t =>
           (t.status, t.pending_action, t.created_at, t.user_input))))
      = .ok (s, (get_task sl.store s.task_id).map (fun t =>
          ("waiting_approval", s.action_plan.description, t.created_at, t.user_input))) := by
  have hcond : (s.approval_status == "approved" || s.approval_status == "rejected"
      || s.approval_status == "timeout") = true := by
    rcases h with h | h | h <;> simp [h]
  unfold human_review_node logged_update
  rw [update_task_ok_of_columns sl.store s.task_id now
    [("status", "waiting_approval"), ("current_node", "human_review"),
     ("pending_action", s.action_plan.description)] (by rfl)]
  rw [hcond]
  simp only [if_true, exceptBindOk, exceptMapPure]
  have hget := get_task_after_update sl.store s.task_id now
    [("status", "waiting_approval"), ("current_node", "human_review"),
     ("pending_action", s.action_plan.description)] _
    (update_task_ok_of_columns sl.store s.task_id now
      [("status", "waiting_approval"), ("current_node", "human_review"),
       ("pending_action", s.action_plan.description)] (by rfl))
  rw [Except.ok.injEq, Prod.mk.injEq]
  constructor
  · show applyNodeUpdate s {} = s
    rfl
  · show (get_task (sl.store.map _) s.task_id).map _ = _
    rw [hget]
    cases get_task sl.store s.task_id with
    | none => rfl
    | some t => rfl

/-- Witness for the amended C8 at a concrete resumed state. -/
theorem C8_resumed_review_passthrough_state_only_witness :
    (human_review_node
        { sampleState with approval_status := "rejected" }
        { store := [⟨"t1", "th1", 0, 4, "rejected", "analyze", "", "改名", ""⟩],
          writes := [] } 9).map (fun r =>
        (applyNodeUpdate { sampleState with approval_status := "rejected" } r.1,
         (get_task r.2.store "t1").map (fun t =>
           (t.status, t.pending_action, t.created_at, t.user_input))))
      = .ok ({ sampleState with approval_status := "rejected" },
          (get_task [⟨"t1", "th1", 0, 4, "rejected", "analyze", "", "改名", ""⟩]
            "t1").map (fun t => ("waiting_approval", "", t.created_at, t.user_input))) :=
  C8_resumed_review_passthrough_state_only
    { sampleState with approval_status := "rejected" }
    { store := [⟨"t1", "th1", 0, 4, "rejected", "analyze", "", "改名", ""⟩],
      writes := [] } 9 (Or.inr (Or.inl rfl))

/-- Claim C7: calling the approve/reject resume operation on a task whose
Task Store status is already terminal (`completed`, `rejected`, `failed`
or `timeout`) is rejected by `_process_approval` with a 400-equivalent
error before anything runs: the store is returned unchanged, the resume
path is never invoked (so nothing re-executes), and the response is the
invalid-transition error naming the current status. -/
theorem C7_resume_on_terminal_task_rejected_400 (sl : StoreLog) (task_id : String)
    (approved : Bool) (comment approver : String) (checkpoints : String → HITLState)
    (now : Nat) (answer : RespondBranch → String) (t : TaskMetadata)
    (hget : get_task sl.store task_id = some t)
    (hterm : t.status ∈ ["completed", "rejected", "failed", "timeout"]) :
    (process_approval sl task_id approved comment approver checkpoints now answer).storeLog
        = sl ∧
    (process_approval sl task_id approved comment approver checkpoints now
        answer).resumeCalls = [] ∧
    (process_approval sl task_id approved comment approver checkpoints now
        answer).response = .error (.badRequest
      ("Task is not waiting for approval. Current status: " ++ t.status)) := by
  have hne : (t.status == "waiting_approval") = false := by
    simp only [List.mem_cons, List.not_mem_nil, or_false] at hterm
    rcases hterm with h | h | h | h <;> rw [h] <;> rfl
  unfold process_approval
  rw [hget]
  simp only [hne, Bool.not_false, if_true]
  exact ⟨trivial, trivial, trivial⟩

/-- Witness for C7 at a concrete completed task. -/
theorem C7_resume_on_terminal_task_rejected_400_witness :
    (process_approval
        { store := [⟨"t7", "th7", 0, 3, "completed", "execute_action", "查询天气", "查询天气", ""⟩],
          writes := [] } "t7" true "再来一次" "alice" (fun _ => sampleState) 9
        (fun _ => "resp")).storeLog
        = { store := [⟨"t7", "th7", 0, 3, "completed", "execute_action", "查询天气", "查询天气", ""⟩],
            writes := [] } ∧
    (process_approval
        { store := [⟨"t7", "th7", 0, 3, "completed", "execute_action", "查询天气", "查询天气", ""⟩],
          writes := [] } "t7" true "再来一次" "alice" (fun _ => sampleState) 9
        (fun _ => "resp")).resumeCalls = [] ∧
    (process_approval
        { store := [⟨"t7", "th7", 0, 3, "completed", "execute_action", "查询天气", "查询天气", ""⟩],
          writes := [] } "t7" true "再来一次" "alice" (fun _ => sampleState) 9
        (fun _ => "resp")).response = .error (.badRequest
      ("Task is not waiting for approval. Current status: " ++ "completed")) :=
  C7_resume_on_terminal_task_rejected_400
    { store := [⟨"t7", "th7", 0, 3, "completed", "execute_action", "查询天气", "查询天气", ""⟩],
      writes := [] } "t7" true "再来一次" "alice" (fun _ => sampleState) 9
    (fun _ => "resp") _ rfl (by decide)

/-- Claim C9, counterexample: run the resumed review path on an approved
task whose plan description is non-empty.  `human_review_node` stamps
`pending_action` and `execute_action_node` then sets the status to
`completed` without clearing `pending_action`, so the final row has
`status = "completed"` with a non-empty `pending_action` — refuting
"`pending_action` is non-empty iff `status == waiting_approval`". -/
theorem C9_counterexample_pending_action_survives_completion :
    (run_human_review_chain
        { task_id := "t9", thread_id := "th9", user_input := "请删除所有用户数据",
          analysis := "删除请求", action_plan := ⟨"delete_data", "删除所有用户数据", "critical", [], "r"⟩,
          risk_level := "critical", requires_approval := true,
          approval_status := "approved", approval_comment := "ok", approver := "alice",
          execution_result := "", final_answer := "", iteration := 1, error := "" }
        { store := (create_task [] "t9" "th9" "请删除所有用户数据" 0).1, writes := [] }
        5 (fun _ => "resp")).map (fun r =>
      (get_task r.2.store "t9").map (fun t => (t.status, t.pending_action)))
      = .ok (some ("completed", "删除所有用户数据")) ∧
    ¬ ((("删除所有用户数据" : String) ≠ "") ↔ (("completed" : String) = "waiting_approval")) := by
  exact ⟨rfl, by decide⟩

/-- Claim C9 (amended): `pending_action` is written (to the action plan's
description) exactly when `human_review_node` moves the row to
`waiting_approval`, and it is never cleared afterwards: on an approved
state, `execute_action_node` sets the status to `completed` and
`handle_rejection_node` would set `rejected`, both leaving
`pending_action` exactly as it was; so non-empty `pending_action` does
not imply `waiting_approval` (and `waiting_approval` rows carry an empty
`pending_action` whenever the plan description is empty). -/
theorem C9_pending_action_stamped_never_cleared (s : HITLState) (sl : StoreLog)
    (now : Nat) (t : TaskMetadata)
    (hget : get_task sl.store s.task_id = some t)
    (happr : s.approval_status = "approved") :
    (human_review_node s sl now).map (fun r =>
        (get_task r.2.store s.task_id).map (fun z => (z.status, z.pending_action)))
      = .ok (some ("waiting_approval", s.action_plan.description)) ∧
    (execute_action_node s sl now).map (fun r =>
        (get_task r.2.store s.task_id).map (fun z => (z.status, z.pending_action)))
      = .ok (some ("completed", t.pending_action)) ∧
    (handle_rejection_node s sl now).map (fun r =>
        (get_task r.2.store s.task_id).map (fun z => (z.status, z.pending_action)))
      = .ok (some ("rejected", t.pending_action)) := by
  have happb : (s.approval_status == "approved") = true := by rw [happr]; rfl
  refine ⟨?_, ?_, ?_⟩
  · unfold human_review_node logged_update
    rw [update_task_ok_of_columns sl.store s.task_id now
      [("status", "waiting_approval"), ("current_node", "human_review"),
       ("pending_action", s.action_plan.description)] (by rfl)]
    have hget2 := get_task_after_update sl.store s.task_id now
      [("status", "waiting_approval"), ("current_node", "human_review"),
       ("pending_action", s.action_plan.description)] _
      (update_task_ok_of_columns sl.store s.task_id now
        [("status", "waiting_approval"), ("current_node", "human_review"),
         ("pending_action", s.action_plan.description)] (by rfl))
    rw [hget] at hget2
    rw [happb]
    simp only [Bool.true_or, if_true, exceptBindOk, exceptMapPure]
    show Except.ok ((get_task (sl.store.map _) s.task_id).map _) = _
    rw [hget2]
    rfl
  · unfold execute_action_node logged_update
    rw [happb]
    simp only [Bool.not_true, Bool.and_false, Bool.false_eq_true, if_false]
    rw [update_task_ok_of_columns sl.store s.task_id now
      [("status", "completed"), ("current_node", "execute_action")] (by rfl)]
    have hget2 := get_task_after_update sl.store s.task_id now
      [("status", "completed"), ("current_node", "execute_action")] _
      (update_task_ok_of_columns sl.store s.task_id now
        [("status", "completed"), ("current_node", "execute_action")] (by rfl))
    rw [hget] at hget2
    simp only [exceptBindOk, exceptMapPure]
    show Except.ok ((get_task (sl.store.map _) s.task_id).map _) = _
    rw [hget2]
    rfl
  · unfold handle_rejection_node logged_update
    rw [update_task_ok_of_columns sl.store s.task_id now
      [("status", "rejected"), ("current_node", "handle_rejection")] (by rfl)]
    have hget2 := get_task_after_update sl.store s.task_id now
      [("status", "rejected"), ("current_node", "handle_rejection")] _
      (update_task_ok_of_columns sl.store s.task_id now
        [("status", "rejected"), ("current_node", "handle_rejection")] (by rfl))
    rw [hget] at hget2
    simp only [exceptBindOk, exceptMapPure]
    show Except.ok ((get_task (sl.store.map _) s.task_id).map _) = _
    rw [hget2]
    rfl

/-- Witness for the amended C9 at a concrete approved task. -/
theorem C9_pending_action_stamped_never_cleared_witness :
    (human_review_node { sampleState with approval_status := "approved" }
        { store := [⟨"t1", "th1", 0, 2, "approved", "analyze", "旧动作", "改名", ""⟩],
          writes := [] } 6).map (fun r =>
        (get_task r.2.store "t1").map (fun z => (z.status, z.pending_action)))
      = .ok (some ("waiting_approval", "")) ∧
    (execute_action_node { sampleState with approval_status := "approved" }
        { store := [⟨"t1", "th1", 0, 2, "approved", "analyze", "旧动作", "改名", ""⟩],
          writes := [] } 6).map (fun r =>
        (get_task r.2.store "t1").map (fun z => (z.status, z.pending_action)))
      = .ok (some ("completed", "旧动作")) ∧
    (handle_rejection_node { sampleState with approval_status := "approved" }
        { store := [⟨"t1", "th1", 0, 2, "approved", "analyze", "旧动作", "改名", ""⟩],
          writes := [] } 6).map (fun r =>
        (get_task r.2.store "t1").map (fun z => (z.status, z.pending_action)))
      = .ok (some ("rejected", "旧动作")) :=
  C9_pending_action_stamped_never_cleared
    { sampleState with approval_status := "approved" }
    { store := [⟨"t1", "th1", 0, 2, "approved", "analyze", "旧动作", "改名", ""⟩],
      writes := [] } 6 _ rfl rfl

/-- Claim C4: an input classified `low` or `medium` risk with
`requires_approval = false` is routed straight from `analyze` to
`execute`, and `run_hitl_agent` terminates (not interrupted) with the
Task Store status `completed`; the run's only status write after the
creation's `pending` is `completed` — `waiting_approval` is never set at
any point (the write log of the run is exactly the one `completed`
update). -/
theorem C4_low_medium_direct_execute_terminal (f : ParsedClassification)
    (user_input task_id thread_id : String) (sl : StoreLog) (now : Nat)
    (answer : RespondBranch → String)
    (hrisk : f.risk_level.getD "medium" = "low" ∨ f.risk_level.getD "medium" = "medium")
    (happ : f.requires_approval = some false)
    (hfresh : get_task sl.store task_id = none)
    (hw : sl.writes = []) :
    route_after_analysis (applyNodeUpdate (initial_hitl_state task_id thread_id user_input)
        (analyze_request_node (initial_hitl_state task_id thread_id user_input) (.parsed f)))
      = "execute" ∧
    (run_hitl_agent user_input task_id thread_id sl now (.parsed f) answer).map
        (fun r => (r.status, r.interrupted, r.storeLog.writes))
      = .ok ("completed", false,
          [(task_id, [("status", "completed"), ("current_node", "execute_action")])]) ∧
    statusesWritten [(task_id, [("status", "completed"), ("current_node", "execute_action")])]
      = ["completed"] := by
  have hreq1 : (applyNodeUpdate (initial_hitl_state task_id thread_id user_input)
      (analyze_request_node (initial_hitl_state task_id thread_id user_input)
        (.parsed f))).requires_approval = false := by
    simp [applyNodeUpdate, analyze_request_node, happ]
  have hrisk1 : (applyNodeUpdate (initial_hitl_state task_id thread_id user_input)
      (analyze_request_node (initial_hitl_state task_id thread_id user_input)
        (.parsed f))).risk_level = f.risk_level.getD "medium" := by
    simp [applyNodeUpdate, analyze_request_node]
  have herr1 : (applyNodeUpdate (initial_hitl_state task_id thread_id user_input)
      (analyze_request_node (initial_hitl_state task_id thread_id user_input)
        (.parsed f))).error = "" := rfl
  have hst1 : (applyNodeUpdate (initial_hitl_state task_id thread_id user_input)
      (analyze_request_node (initial_hitl_state task_id thread_id user_input)
        (.parsed f))).approval_status = "" := rfl
  have htid1 : (applyNodeUpdate (initial_hitl_state task_id thread_id user_input)
      (analyze_request_node (initial_hitl_state task_id thread_id user_input)
        (.parsed f))).task_id = task_id := rfl
  have hroute : route_after_analysis (applyNodeUpdate
      (initial_hitl_state task_id thread_id user_input)
      (analyze_request_node (initial_hitl_state task_id thread_id user_input)
        (.parsed f))) = "execute" := by
    unfold route_after_analysis
    rw [hrisk1, hreq1]
    rcases hrisk with h | h <;> rw [h] <;> exact rfl
  refine ⟨hroute, ?_, rfl⟩
  unfold run_hitl_agent create_task invoke_fresh
  simp only []
  rw [hroute]
  have hb1 : (("execute" : String) == "human_review") = false := rfl
  have hb2 : (("execute" : String) == "execute") = true := rfl
  simp only [hb1, hb2, Bool.false_eq_true, if_false, if_true]
  rw [run_execute_chain_no_approval _ _ now answer hreq1 herr1 hst1]
  simp only [exceptBindOk, exceptPureBind, exceptMapPure]
  rw [htid1]
  have hget0 : get_task (sl.store ++
      [{ task_id := task_id, thread_id := thread_id, created_at := now, updated_at := now,
         status := "pending", current_node := "", pending_action := "",
         user_input := user_input, error_message := "" }]) task_id
      = some { task_id := task_id, thread_id := thread_id, created_at := now,
               updated_at := now, status := "pending", current_node := "",
               pending_action := "", user_input := user_input, error_message := "" } :=
    get_task_append_fresh sl.store _ hfresh
  have hst2 := get_task_after_update (sl.store ++
      [{ task_id := task_id, thread_id := thread_id, created_at := now, updated_at := now,
         status := "pending", current_node := "", pending_action := "",
         user_input := user_input, error_message := "" }]) task_id now
      [("status", "completed"), ("current_node", "execute_action")] _
      (update_task_ok_of_columns _ task_id now
        [("status", "completed"), ("current_node", "execute_action")] (by rfl))
  rw [hget0] at hst2
  unfold reported_status
  rw [hst2, hw]
  exact rfl

/-- Witness for C4: the weather-query scenario (low risk, no approval). -/
theorem C4_low_medium_direct_execute_terminal_witness :
    route_after_analysis (applyNodeUpdate (initial_hitl_state "t4" "th4" "查询北京天气")
        (analyze_request_node (initial_hitl_state "t4" "th4" "查询北京天气")
          (.parsed { analysis := some "天气查询", action_type := some "query_info",
                     description := some "查询北京今天的天气", risk_level := some "low",
                     parameters := some [], reason := some "只读查询",
                     requires_approval := some false })))
      = "execute" ∧
    (run_hitl_agent "查询北京天气" "t4" "th4" { store := [], writes := [] } 11
        (.parsed { analysis := some "天气查询", action_type := some "query_info",
                   description := some "查询北京今天的天气", risk_level := some "low",
                   parameters := some [], reason := some "只读查询",
                   requires_approval := some false }) (fun _ => "resp")).map
        (fun r => (r.status, r.interrupted, r.storeLog.writes))
      = .ok ("completed", false,
          [("t4", [("status", "completed"), ("current_node", "execute_action")])]) ∧
    statusesWritten [("t4", [("status", "completed"), ("current_node", "execute_action")])]
      = ["completed"] :=
  C4_low_medium_direct_execute_terminal
    { analysis := some "天气查询", action_type := some "query_info",
      description := some "查询北京今天的天气", risk_level := some "low",
      parameters := some [], reason := some "只读查询", requires_approval := some false }
    "查询北京天气" "t4" "th4" { store := [], writes := [] } 11 (fun _ => "resp")
    (Or.inl rfl) rfl rfl rfl

/-- Claim C3, failing run: a request classified `critical` with
`requires_approval = true` is routed to `human_review`, but because
`create_hitl_graph` compiles the graph with
`interrupt_before=["human_review"]`, `run_hitl_agent` suspends *before*
`human_review_node` executes: at the suspension point the run has issued
no store write at all, the Task Store status is still `"pending"` (not
`waiting_approval` as the claim and the node's own docstring state), and
the workflow `approval_status` is still empty.  (The `waiting_approval`
write only happens inside the node, i.e. during a *resumed* invocation —
yet `_process_approval` refuses to resume any task whose status is not
`waiting_approval`, so such a run is stuck.) -/
theorem C3_high_risk_run_suspends_with_status_pending :
    route_after_analysis (applyNodeUpdate (initial_hitl_state "t3" "th3" "删除我的账号")
        (analyze_request_node (initial_hitl_state "t3" "th3" "删除我的账号")
          (.parsed { analysis := some "用户要求删除账号", action_type := some "delete_data",
                     description := some "删除用户账号", risk_level := some "critical",
                     parameters := some [], reason := some "用户明确请求",
                     requires_approval := some true }))) = "human_review" ∧
    (run_hitl_agent "删除我的账号" "t3" "th3" { store := [], writes := [] } 100
        (.parsed { analysis := some "用户要求删除账号", action_type := some "delete_data",
                   description := some "删除用户账号", risk_level := some "critical",
                   parameters := some [], reason := some "用户明确请求",
                   requires_approval := some true }) (fun _ => "resp")).map
        (fun r => (r.status, r.interrupted, r.storeLog.writes, r.result.approval_status))
      = .ok ("pending", true, [], "") := by
  exact ⟨rfl, rfl⟩

/-- Claim C5, failing sweep: one `waiting_approval` task created at time 0
with the default 300-second timeout, swept at time 301.  The sweeper does
invoke the resume path with `approved=false`, the auto-rejection comment
and approver `"system_timeout"` (first conjunct), but
`resume_after_approval` aborts on its very first store statement — its
`update_task` call passes an `approval_status` key that is not a column
of the `tasks` table (third conjunct) — so the `except` branch swallows
the error, the subsequent `status="timeout"` update is skipped, and the
task is still `waiting_approval` after the cycle (second conjunct),
contradicting the claim's "then marks the task's Task Store status as
timeout". -/
theorem C5_sweep_invokes_resume_but_timeout_status_never_written :
    (check_approval_timeouts_cycle
        { store := [⟨"t5", "th5", 0, 0, "waiting_approval", "human_review", "删除数据",
                     "请删除数据", ""⟩], writes := [] } 301 300
        (fun _ => { sampleState with
          task_id := "t5", thread_id := "th5",
          action_plan := ⟨"delete_data", "删除数据", "critical", [], "r"⟩,
          risk_level := "critical", requires_approval := true,
          approval_status := "pending" }) (fun _ => "resp")).2
      = [{ task_id := "t5", thread_id := "th5", approved := false,
           comment := "审批超时，自动拒绝", approver := "system_timeout" }] ∧
    ((check_approval_timeouts_cycle
        { store := [⟨"t5", "th5", 0, 0, "waiting_approval", "human_review", "删除数据",
                     "请删除数据", ""⟩], writes := [] } 301 300
        (fun _ => { sampleState with
          task_id := "t5", thread_id := "th5",
          action_plan := ⟨"delete_data", "删除数据", "critical", [], "r"⟩,
          risk_level := "critical", requires_approval := true,
          approval_status := "pending" }) (fun _ => "resp")).1.store.map
        TaskMetadata.status) = ["waiting_approval"] ∧
    resume_after_approval "t5" "th5" false "审批超时，自动拒绝" "system_timeout"
        { sampleState with
          task_id := "t5", thread_id := "th5",
          action_plan := ⟨"delete_data", "删除数据", "critical", [], "r"⟩,
          risk_level := "critical", requires_approval := true,
          approval_status := "pending" }
        { store := [⟨"t5", "th5", 0, 0, "waiting_approval", "human_review", "删除数据",
                     "请删除数据", ""⟩], writes := [] } 301 (fun _ => "resp")
      = .error "no such column" := by
  exact ⟨rfl, rfl, rfl⟩

/-- Claim C6, failing sweeps: the same overdue `waiting_approval` task is
auto-rejected by the sweeper *again* on the next cycle.  Because the
sweeper's resume call fails on its first store statement (the
`approval_status` keyword is not a column of the `tasks` table) and the
`status="timeout"` update sits inside the same `try`, the task's status
is still `waiting_approval` after the first cycle, so a later cycle picks
it up and issues the identical resume call once more — refuting "the
sweeper auto-rejects it at most once ... even if the resume call itself
fails partway". -/
theorem C6_overdue_task_swept_again_next_cycle :
    (check_approval_timeouts_cycle
        (check_approval_timeouts_cycle
          { store := [⟨"t6", "th6", 0, 0, "waiting_approval", "human_review", "群发通知",
                       "给所有用户发送通知", ""⟩], writes := [] } 301 300
          (fun _ => { sampleState with
            task_id := "t6", thread_id := "th6",
            action_plan := ⟨"send_message", "群发通知", "critical", [], "r"⟩,
            risk_level := "critical", requires_approval := true,
            approval_status := "pending" }) (fun _ => "resp")).1
        340 300
        (fun _ => { sampleState with
          task_id := "t6", thread_id := "th6",
          action_plan := ⟨"send_message", "群发通知", "critical", [], "r"⟩,
          risk_level := "critical", requires_approval := true,
          approval_status := "pending" }) (fun _ => "resp")).2
      = [{ task_id := "t6", thread_id := "th6", approved := false,
           comment := "审批超时，自动拒绝", approver := "system_timeout" }] ∧
    ((check_approval_timeouts_cycle
        { store := [⟨"t6", "th6", 0, 0, "waiting_approval", "human_review", "群发通知",
                     "给所有用户发送通知", ""⟩], writes := [] } 301 300
        (fun _ => { sampleState with
          task_id := "t6", thread_id := "th6",
          action_plan := ⟨"send_message", "群发通知", "critical", [], "r"⟩,
          risk_level := "critical", requires_approval := true,
          approval_status := "pending" }) (fun _ => "resp")).1.store.map
        TaskMetadata.status) = ["waiting_approval"] := by
  exact ⟨rfl, rfl⟩

/-- Witness for C10 at a concrete response that omits both
`requires_approval` and `risk_level`. -/
theorem C10_omitted_requires_approval_defaults_true_witness :
    (analyze_request_node sampleState
        (.parsed { analysis := some "改名", action_type := some "modify_data",
                   description := some "修改用户名" })).requires_approval = some true ∧
    ((none : Option String) = none →
      (analyze_request_node sampleState
        (.parsed { analysis := some "改名", action_type := some "modify_data",
                   description := some "修改用户名" })).risk_level = some "medium") ∧
    route_after_analysis (applyNodeUpdate sampleState
      (analyze_request_node sampleState
        (.parsed { analysis := some "改名", action_type := some "modify_data",
                   description := some "修改用户名" }))) = "human_review" :=
  C10_omitted_requires_approval_defaults_true sampleState
    { analysis := some "改名", action_type := some "modify_data",
      description := some "修改用户名" } rfl

end HITL
